import Mathlib

/-!
Verification development for the woomem allocator.

The repository contains several evolutions of the allocator.  Two of them are
embedded here, because the claims under scrutiny refer to them:

- the CentralCache / ThreadCache variant of src/src/woomem.cpp (second half of
  the file), with the global atomic gc timing, embedded in the namespace
  WoomemCentral; its mark constants come from src/include/woomem.h
  (UNMARKED = 0, SELF_MARKED = 1, FULL_MARKED = 2, DONOT_RELEASE = 3) and its
  per block attribute is the bitfield of src/unnamed/part_000
  (4 bit age, 2 bit mark, 2 bit timing);

- the page based variant of src/unnamed/part_002, embedded in the namespace
  WoomemPaged; its constants come from the second header of
  src/unnamed/part_000 (RELEASED = 0, UNMARKED = 1, SELF_MARKED = 2,
  FULL_MARKED = 3, and the NEED_SWEEP / AUTO_MARK / HAS_MARKER / HAS_FINALIZER
  bit mask).

All definitions are translated directly from the C++ sources; machine
integer truncation is made explicit where it matters (the 2 bit gc timing
mask, the uint8 underlying type of the PageGroupType enum).
-/

namespace WoomemCentral

/-- Mark state UNMARKED from src/include/woomem.h. -/
def WOOMEM_GC_MARKED_UNMARKED : Nat := 0

/-- Mark state SELF_MARKED from src/include/woomem.h. -/
def WOOMEM_GC_MARKED_SELF_MARKED : Nat := 1

/-- Mark state FULL_MARKED from src/include/woomem.h. -/
def WOOMEM_GC_MARKED_FULL_MARKED : Nat := 2

/-- Mark state DONOT_RELEASE from src/include/woomem.h. -/
def WOOMEM_GC_MARKED_DONOT_RELEASE : Nat := 3

/-- Bound on the per class thread cache, src/src/woomem.cpp line 1157. -/
def THREAD_CACHE_MAX_SIZE : Nat := 512

/-- The woomem_MemoryAttribute bitfield of src/unnamed/part_000:
a 4 bit age, a 2 bit mark state and a 2 bit allocation timing.
Every write performed by the embedded code stays inside those ranges. -/
structure woomem_MemoryAttribute where
  m_gc_age : Nat
  m_gc_marked : Nat
  m_alloc_timing : Nat
deriving DecidableEq

/-- The BlockHeader of src/src/woomem.cpp (lines 1243 to 1274); the two
flag bits FLAG_ALLOCATED and FLAG_LARGE_BLOCK are modelled as Booleans. -/
structure BlockHeader where
  m_user_size : Nat
  m_size_class : Nat
  m_allocated : Bool
  m_large_block : Bool
  m_gc_attr : woomem_MemoryAttribute
deriving DecidableEq

/-- CentralCache::should_gc_free, src/src/woomem.cpp lines 1714 to 1739. -/
def should_gc_free (header : BlockHeader) (current_timing : Nat) (is_full : Bool) : Bool :=
  let attr := header.m_gc_attr
  if attr.m_gc_marked = WOOMEM_GC_MARKED_DONOT_RELEASE then false
  else if attr.m_gc_marked = WOOMEM_GC_MARKED_SELF_MARKED ∨
          attr.m_gc_marked = WOOMEM_GC_MARKED_FULL_MARKED then false
  else if attr.m_alloc_timing = current_timing ∧ attr.m_gc_age = 15 then false
  else if is_full = false ∧ attr.m_gc_age = 0 then false
  else true

/-- CentralCache::update_gc_attr_after_survive, src/src/woomem.cpp
lines 1741 to 1753: reset a mark that is not DONOT_RELEASE back to
UNMARKED, then decrement a positive age. -/
def update_gc_attr_after_survive (header : BlockHeader) : BlockHeader :=
  let attr := header.m_gc_attr
  let attr1 :=
    if attr.m_gc_marked ≠ WOOMEM_GC_MARKED_DONOT_RELEASE then
      { attr with m_gc_marked := WOOMEM_GC_MARKED_UNMARKED }
    else attr
  let attr2 :=
    if attr1.m_gc_age > 0 then { attr1 with m_gc_age := attr1.m_gc_age - 1 }
    else attr1
  { header with m_gc_attr := attr2 }

/-- One step of CentralCache::gc_sweep, src/src/woomem.cpp lines 1557 to
1632, acting on a single block: an allocated block is either released
(second component true, the allocated flag cleared, the destroy callback
invoked) when should_gc_free says so, or it survives and its gc attribute
is updated. -/
def gc_sweep_block (header : BlockHeader) (current_timing : Nat) (is_full : Bool) :
    BlockHeader × Bool :=
  if header.m_allocated then
    if should_gc_free header current_timing is_full then
      ({ header with m_allocated := false }, true)
    else
      (update_gc_attr_after_survive header, false)
  else (header, false)

/-- woomem_try_mark_self, src/src/woomem.cpp lines 2027 to 2061, specialised
to a unit that the allocator handed out: validate_ptr succeeds exactly when
the header carries the allocated flag, after which the mark state and the
minor gc old generation guard are checked; on success the unit moves to
SELF_MARKED and the address is returned (first component true). -/
def woomem_try_mark_self (header : BlockHeader) (is_full_gc : Bool) : Bool × BlockHeader :=
  if header.m_allocated = false then (false, header)
  else if header.m_gc_attr.m_gc_marked = WOOMEM_GC_MARKED_DONOT_RELEASE then (false, header)
  else if header.m_gc_attr.m_gc_marked = WOOMEM_GC_MARKED_SELF_MARKED ∨
          header.m_gc_attr.m_gc_marked = WOOMEM_GC_MARKED_FULL_MARKED then (false, header)
  else if is_full_gc = false ∧ header.m_gc_attr.m_gc_age = 0 then (false, header)
  else (true, { header with m_gc_attr :=
                  { header.m_gc_attr with
                      m_gc_marked := WOOMEM_GC_MARKED_SELF_MARKED } })

/-- woomem_full_mark, src/src/woomem.cpp lines 2063 to 2072: the mark state
is set to FULL_MARKED unconditionally. -/
def woomem_full_mark (header : BlockHeader) : BlockHeader :=
  { header with m_gc_attr :=
      { header.m_gc_attr with m_gc_marked := WOOMEM_GC_MARKED_FULL_MARKED } }

/-- Header reset performed by ThreadCache::free, src/src/woomem.cpp lines
1845 to 1849: m_flags is zeroed and the gc attribute is pre initialised
for the next allocation (age 15, UNMARKED). -/
def free_reset_header (header : BlockHeader) : BlockHeader :=
  { header with
      m_allocated := false
      m_large_block := false
      m_gc_attr := { header.m_gc_attr with
                       m_gc_age := 15
                       m_gc_marked := WOOMEM_GC_MARKED_UNMARKED } }

/-- Header initialisation performed by ThreadCache::alloc_slow_path,
src/src/woomem.cpp lines 1823 to 1829: allocated flag raised, user size
recorded, age 15, UNMARKED, and the current gc timing stamped. -/
def alloc_init_header (header : BlockHeader) (size : Nat) (gc_timing : Nat) : BlockHeader :=
  { header with
      m_allocated := true
      m_large_block := false
      m_user_size := size
      m_gc_attr := { m_gc_age := 15
                     m_gc_marked := WOOMEM_GC_MARKED_UNMARKED
                     m_alloc_timing := gc_timing } }

/-- Header initialisation performed by the fast path of ThreadCache::alloc,
src/src/woomem.cpp lines 1796 to 1801: m_flags is set to FLAG_ALLOCATED,
the user size is recorded, and only m_alloc_timing is refreshed.  The
comment there assumes the gc age and mark state were already reset when
the block was freed; that holds for blocks recycled through
ThreadCache::free, but not for blocks reclaimed by gc_sweep, whose reclaim
path clears only the allocated flag. -/
def alloc_fast_path_init_header (header : BlockHeader) (size : Nat) (gc_timing : Nat) :
    BlockHeader :=
  { header with
      m_allocated := true
      m_large_block := false
      m_user_size := size
      m_gc_attr := { header.m_gc_attr with m_alloc_timing := gc_timing } }

/-- Thread cache state for one size class, together with the central cache
lists it exchanges blocks with (src/src/woomem.cpp lines 1760 to 1888). -/
structure ThreadCacheClass where
  m_free_list : List BlockHeader
  m_free_count : Nat
  central_free_list : List BlockHeader
  central_free_count : Nat
  central_large_blocks : List BlockHeader
deriving DecidableEq

/-- CentralCache::return_batch, src/src/woomem.cpp lines 1432 to 1445:
a null head or a zero count is ignored, otherwise the batch is spliced in
front of the central free list. -/
def return_batch (central_list : List BlockHeader) (central_count : Nat)
    (head : List BlockHeader) (count : Nat) : List BlockHeader × Nat :=
  if head = [] ∨ count = 0 then (central_list, central_count)
  else (head ++ central_list, central_count + count)

/-- ThreadCache::return_to_central, src/src/woomem.cpp lines 1868 to 1887:
half of the cached blocks (the first m_free_count / 2 nodes of the list)
are handed to the central cache. -/
def return_to_central (tc : ThreadCacheClass) : ThreadCacheClass :=
  { tc with
      m_free_list := tc.m_free_list.drop (tc.m_free_count / 2)
      m_free_count := tc.m_free_count - tc.m_free_count / 2
      central_free_list :=
        (return_batch tc.central_free_list tc.central_free_count
          (tc.m_free_list.take (tc.m_free_count / 2)) (tc.m_free_count / 2)).1
      central_free_count :=
        (return_batch tc.central_free_list tc.central_free_count
          (tc.m_free_list.take (tc.m_free_count / 2)) (tc.m_free_count / 2)).2 }

/-- ThreadCache::free, src/src/woomem.cpp lines 1835 to 1861: a large block
goes back to the central cache (CentralCache::free_large unlinks it),
otherwise the block is reset, pushed on the local free list, and when the
incremented count exceeds THREAD_CACHE_MAX_SIZE half of the list is
returned. -/
def ThreadCache_free (tc : ThreadCacheClass) (header : BlockHeader) : ThreadCacheClass :=
  if header.m_large_block then
    { tc with central_large_blocks := tc.central_large_blocks.erase header }
  else if tc.m_free_count + 1 > THREAD_CACHE_MAX_SIZE then
    return_to_central
      { tc with
          m_free_list := free_reset_header header :: tc.m_free_list
          m_free_count := tc.m_free_count + 1 }
  else
    { tc with
        m_free_list := free_reset_header header :: tc.m_free_list
        m_free_count := tc.m_free_count + 1 }

/-- Variant one of the file (src/src/woomem.cpp lines 872 to 895) only
clears the allocated flag when freeing. -/
def free_clear_allocated_v1 (header : BlockHeader) : BlockHeader :=
  { header with m_allocated := false }

/-- Bound on the per class thread cache in the first variant of the file,
src/src/woomem.cpp line 237. -/
def THREAD_CACHE_MAX_SIZE_v1 : Nat := 64

/-- ThreadCache::free of the first variant, src/src/woomem.cpp lines 872
to 895. -/
def ThreadCache_free_v1 (tc : ThreadCacheClass) (header : BlockHeader) : ThreadCacheClass :=
  if header.m_large_block then
    { tc with central_large_blocks := tc.central_large_blocks.erase header }
  else if tc.m_free_count + 1 > THREAD_CACHE_MAX_SIZE_v1 then
    return_to_central
      { tc with
          m_free_list := free_clear_allocated_v1 header :: tc.m_free_list
          m_free_count := tc.m_free_count + 1 }
  else
    { tc with
        m_free_list := free_clear_allocated_v1 header :: tc.m_free_list
        m_free_count := tc.m_free_count + 1 }

/-- Global state of the first variant of the file: the g_initialized flag
together with the thread cache touched by a free. -/
structure AllocGlobalState where
  g_initialized : Bool
  thread_cache : ThreadCacheClass
deriving DecidableEq

/-- woomem_free of the first variant, src/src/woomem.cpp lines 1013 to 1021:
a null pointer, or a call before initialisation, returns at once; otherwise
the thread cache free runs. -/
def woomem_free (st : AllocGlobalState) (ptr : Option BlockHeader) : AllocGlobalState :=
  match ptr with
  | none => st
  | some header =>
      if st.g_initialized = false then st
      else { st with thread_cache := ThreadCache_free_v1 st.thread_cache header }

/-- CentralCache::begin_gc_mark, src/src/woomem.cpp lines 1513 to 1518:
the published timing advances by one under the two bit mask 0x03. -/
def begin_gc_mark_timing (timing : Nat) : Nat := (timing + 1) &&& 0x03

/-- Global gc publication state: the timing counter and the full gc flag. -/
structure GcGlobals where
  g_current_gc_timing : Nat
  g_is_full_gc : Bool
deriving DecidableEq

/-- CentralCache::begin_gc_mark acting on the published globals. -/
def begin_gc_mark (g : GcGlobals) (is_full_gc : Bool) : GcGlobals :=
  { g_current_gc_timing := begin_gc_mark_timing g.g_current_gc_timing
    g_is_full_gc := is_full_gc }

/-- CentralCache::init, src/src/woomem.cpp lines 1363 to 1372, stores
timing zero. -/
def init_gc_globals : GcGlobals :=
  { g_current_gc_timing := 0, g_is_full_gc := false }

/-- The published timing after n calls of woomem_begin_gc_mark from a fresh
initialisation. -/
def timing_after_begin_gc_marks : Nat → Nat
  | 0 => init_gc_globals.g_current_gc_timing
  | n + 1 => begin_gc_mark_timing (timing_after_begin_gc_marks n)

/-- Operations a mutator or the external collector may apply to one unit
during a gc cycle (between woomem_begin_gc_mark and the sweep):
woomem_try_mark_self, woomem_full_mark, and ThreadCache::free. -/
inductive CycleOp where
  | tryMark : CycleOp
  | fullMark : CycleOp
  | freeUnit : CycleOp
deriving DecidableEq

/-- Effect of one cycle operation on a unit header. -/
def cycle_op_apply (is_full_gc : Bool) (header : BlockHeader) : CycleOp → BlockHeader
  | CycleOp.tryMark => (woomem_try_mark_self header is_full_gc).2
  | CycleOp.fullMark => woomem_full_mark header
  | CycleOp.freeUnit => free_reset_header header

/-- Number of woomem_try_mark_self calls in the operation list that return
a non null address for the unit. -/
def try_mark_success_count (is_full_gc : Bool) (header : BlockHeader) :
    List CycleOp → Nat
  | [] => 0
  | op :: ops =>
      (match op with
       | CycleOp.tryMark => if (woomem_try_mark_self header is_full_gc).1 then 1 else 0
       | CycleOp.fullMark => 0
       | CycleOp.freeUnit => 0)
      + try_mark_success_count is_full_gc (cycle_op_apply is_full_gc header op) ops

/-- A unit on which a further try mark cannot succeed: either it is gone
(deallocated) or its mark state is no longer UNMARKED. -/
def mark_blocked (header : BlockHeader) : Prop :=
  header.m_allocated = true →
    (header.m_gc_attr.m_gc_marked = WOOMEM_GC_MARKED_SELF_MARKED ∨
     header.m_gc_attr.m_gc_marked = WOOMEM_GC_MARKED_FULL_MARKED ∨
     header.m_gc_attr.m_gc_marked = WOOMEM_GC_MARKED_DONOT_RELEASE)

theorem try_mark_blocked_fails (header : BlockHeader) (f : Bool)
    (hb : mark_blocked header) : woomem_try_mark_self header f = (false, header) := by
  unfold woomem_try_mark_self
  by_cases ha : header.m_allocated = false
  · simp [ha]
  · have hmk := hb (by revert ha; cases header.m_allocated <;> simp)
    rcases hmk with h1 | h1 | h1 <;>
      simp [h1, WOOMEM_GC_MARKED_SELF_MARKED, WOOMEM_GC_MARKED_FULL_MARKED,
        WOOMEM_GC_MARKED_DONOT_RELEASE, ha]

theorem try_mark_fail_unchanged (header : BlockHeader) (f : Bool)
    (hf : (woomem_try_mark_self header f).1 = false) :
    (woomem_try_mark_self header f).2 = header := by
  unfold woomem_try_mark_self at hf ⊢
  split_ifs at hf ⊢ <;> rfl

theorem try_mark_success_blocked (header : BlockHeader) (f : Bool)
    (hs : (woomem_try_mark_self header f).1 = true) :
    mark_blocked (woomem_try_mark_self header f).2 := by
  unfold woomem_try_mark_self at hs ⊢
  split_ifs at hs ⊢
  intro _
  left
  rfl

theorem mark_blocked_preserved (f : Bool) (header : BlockHeader) (op : CycleOp)
    (hb : mark_blocked header) : mark_blocked (cycle_op_apply f header op) := by
  cases op
  · rw [cycle_op_apply, try_mark_blocked_fails header f hb]
    exact hb
  · intro _
    right; left; rfl
  · intro hcontra
    simp [cycle_op_apply, free_reset_header] at hcontra

theorem success_count_zero_of_blocked (f : Bool) :
    ∀ (ops : List CycleOp) (header : BlockHeader), mark_blocked header →
      try_mark_success_count f header ops = 0 := by
  intro ops
  induction ops with
  | nil => intro header _; rfl
  | cons op ops ih =>
      intro header hb
      unfold try_mark_success_count
      have hz : (match op with
           | CycleOp.tryMark => if (woomem_try_mark_self header f).1 then 1 else 0
           | CycleOp.fullMark => 0
           | CycleOp.freeUnit => 0) = 0 := by
        cases op <;> simp [try_mark_blocked_fails header f hb]
      rw [hz, ih (cycle_op_apply f header op) (mark_blocked_preserved f header op hb)]

theorem try_mark_at_most_once_aux (f : Bool) :
    ∀ (ops : List CycleOp) (header : BlockHeader),
      try_mark_success_count f header ops ≤ 1 := by
  intro ops
  induction ops with
  | nil => intro header; exact Nat.zero_le 1
  | cons op ops ih =>
      intro header
      unfold try_mark_success_count
      cases op
      · by_cases hs : (woomem_try_mark_self header f).1 = true
        · have hb := try_mark_success_blocked header f hs
          have hz := success_count_zero_of_blocked f ops _ hb
          simp only [cycle_op_apply] at hz ⊢
          simp [hs, hz]
        · have hf : (woomem_try_mark_self header f).1 = false := by
            revert hs; cases (woomem_try_mark_self header f).1 <;> simp
          have he := try_mark_fail_unchanged header f hf
          simp only [cycle_op_apply, hf, he]
          simpa using ih header
      · simpa [cycle_op_apply] using ih (woomem_full_mark header)
      · simpa [cycle_op_apply] using ih (free_reset_header header)

/-- Claim C1: for every unit allocated by the allocator and every gc cycle,
woomem_try_mark_self returns a non null pointer at most once for that unit
within the cycle; a first call on an allocated, unmarked, non old unit
returns its address and moves it to SELF_MARKED, and within the cycle no
sequence of further try mark, full mark or free operations lets a second
try mark succeed. -/
theorem claim_C1_try_mark_at_most_once :
    (∀ (header : BlockHeader) (f : Bool),
        header.m_allocated = true →
        header.m_gc_attr.m_gc_marked = WOOMEM_GC_MARKED_UNMARKED →
        header.m_gc_attr.m_gc_age ≠ 0 →
        woomem_try_mark_self header f =
          (true, { header with m_gc_attr :=
                    { header.m_gc_attr with
                        m_gc_marked := WOOMEM_GC_MARKED_SELF_MARKED } })) ∧
    (∀ (f : Bool) (ops : List CycleOp) (header : BlockHeader),
        try_mark_success_count f header ops ≤ 1) := by
  constructor
  · intro header f ha hm hage
    unfold woomem_try_mark_self
    simp only [WOOMEM_GC_MARKED_UNMARKED] at hm
    simp [ha, hm, WOOMEM_GC_MARKED_SELF_MARKED, WOOMEM_GC_MARKED_FULL_MARKED,
      WOOMEM_GC_MARKED_DONOT_RELEASE, hage]
  · exact fun f => try_mark_at_most_once_aux f

/-- Sample allocated, unmarked, young unit. -/
def sample_unmarked_header : BlockHeader :=
  { m_user_size := 64
    m_size_class := 5
    m_allocated := true
    m_large_block := false
    m_gc_attr := { m_gc_age := 15, m_gc_marked := 0, m_alloc_timing := 1 } }

/-- Witness for claim C1 at a concrete unit and a concrete operation list. -/
theorem claim_C1_witness :
    sample_unmarked_header.m_allocated = true ∧
    sample_unmarked_header.m_gc_attr.m_gc_marked = WOOMEM_GC_MARKED_UNMARKED ∧
    sample_unmarked_header.m_gc_attr.m_gc_age ≠ 0 ∧
    woomem_try_mark_self sample_unmarked_header true =
      (true, { sample_unmarked_header with m_gc_attr :=
                { sample_unmarked_header.m_gc_attr with
                    m_gc_marked := WOOMEM_GC_MARKED_SELF_MARKED } }) ∧
    try_mark_success_count true sample_unmarked_header
      [CycleOp.tryMark, CycleOp.tryMark, CycleOp.fullMark, CycleOp.tryMark] ≤ 1 :=
  ⟨rfl, rfl, by decide,
   claim_C1_try_mark_at_most_once.1 sample_unmarked_header true rfl rfl (by decide),
   claim_C1_try_mark_at_most_once.2 true
     [CycleOp.tryMark, CycleOp.tryMark, CycleOp.fullMark, CycleOp.tryMark]
     sample_unmarked_header⟩

/-- Claim C2: an old generation unit (age zero) is never released by a minor
gc sweep and woomem_try_mark_self refuses to mark it under a minor gc, while
a full gc subjects the same unit, when unmarked, to normal reclamation. -/
theorem claim_C2_old_generation_minor_vs_full :
    ∀ (header : BlockHeader) (t : Nat),
      header.m_gc_attr.m_gc_age = 0 →
      (header.m_allocated = true →
        gc_sweep_block header t false = (update_gc_attr_after_survive header, false)) ∧
      woomem_try_mark_self header false = (false, header) ∧
      (header.m_allocated = true →
        header.m_gc_attr.m_gc_marked = WOOMEM_GC_MARKED_UNMARKED →
        gc_sweep_block header t true = ({ header with m_allocated := false }, true)) := by
  intro header t hage
  refine ⟨?_, ?_, ?_⟩
  · intro ha
    unfold gc_sweep_block should_gc_free
    simp [ha, hage]
  · unfold woomem_try_mark_self
    by_cases ha : header.m_allocated = false
    · simp [ha]
    · simp [ha, hage]
  · intro ha hm
    unfold gc_sweep_block should_gc_free
    simp only [WOOMEM_GC_MARKED_UNMARKED] at hm
    simp [ha, hage, hm, WOOMEM_GC_MARKED_SELF_MARKED, WOOMEM_GC_MARKED_FULL_MARKED,
      WOOMEM_GC_MARKED_DONOT_RELEASE]

/-- Sample old generation unit, unmarked. -/
def sample_old_header : BlockHeader :=
  { m_user_size := 128
    m_size_class := 9
    m_allocated := true
    m_large_block := false
    m_gc_attr := { m_gc_age := 0, m_gc_marked := 0, m_alloc_timing := 2 } }

/-- Witness for claim C2 at a concrete old generation unit. -/
theorem claim_C2_witness :
    sample_old_header.m_gc_attr.m_gc_age = 0 ∧
    gc_sweep_block sample_old_header 3 false
      = (update_gc_attr_after_survive sample_old_header, false) ∧
    woomem_try_mark_self sample_old_header false = (false, sample_old_header) ∧
    gc_sweep_block sample_old_header 3 true
      = ({ sample_old_header with m_allocated := false }, true) :=
  ⟨rfl,
   (claim_C2_old_generation_minor_vs_full sample_old_header 3 rfl).1 rfl,
   (claim_C2_old_generation_minor_vs_full sample_old_header 3 rfl).2.1,
   (claim_C2_old_generation_minor_vs_full sample_old_header 3 rfl).2.2 rfl rfl⟩

/-- The block of the claim C3 failing execution after it has been handed
out again during cycle three: allocated by the slow path in epoch 1
(alloc_init_header), full marked and surviving the cycle 1 sweep (its age
drops to 14 and its mark resets), left unmarked and reclaimed by the
cycle 2 full sweep (which resets no gc attribute), then recycled during
cycle 3 by the thread cache fast path, which refreshes only the
allocation timing. -/
def c3_recycled_header : BlockHeader :=
  alloc_fast_path_init_header
    (gc_sweep_block
      (gc_sweep_block
        (woomem_full_mark (alloc_init_header sample_unmarked_header 64 1)) 1 true).1
      2 true).1
    64 3

/-- Claim C3 (failing execution): the claim states that every unit
allocated after a cycle has begun and before its sweep carries age 15 and
is spared by that sweep.  The code violates this: gc_sweep reclaims a
block without resetting its gc attributes, and the fast allocation path
refreshes only the allocation timing, so a block that survived one cycle
(age 14), was reclaimed in the next and was recycled during cycle three
is allocated during cycle three with timing 3 but age 14 — and the sweep
of cycle three itself reclaims it, because the epoch guard of
should_gc_free requires age 15 together with the matching timing. -/
theorem claim_C3_fast_path_recycled_not_spared :
    c3_recycled_header.m_allocated = true ∧
    c3_recycled_header.m_gc_attr.m_alloc_timing = 3 ∧
    c3_recycled_header.m_gc_attr.m_gc_marked = WOOMEM_GC_MARKED_UNMARKED ∧
    c3_recycled_header.m_gc_attr.m_gc_age = 14 ∧
    should_gc_free c3_recycled_header 3 true = true ∧
    gc_sweep_block c3_recycled_header 3 true
      = ({ c3_recycled_header with m_allocated := false }, true) := by
  refine ⟨by decide, by decide, by decide, by decide, by decide, by decide⟩

/-- Sample unit carrying the FULL_MARKED state, used to exhibit the mark
reset performed by the sweep. -/
def sample_fullmarked_header : BlockHeader :=
  { m_user_size := 64
    m_size_class := 5
    m_allocated := true
    m_large_block := false
    m_gc_attr := { m_gc_age := 7, m_gc_marked := 2, m_alloc_timing := 0 } }

/-- Counterexample to claim C5 as stated: the sweep does not leave a
surviving FULL_MARKED unit in the FULL_MARKED state; at this concrete unit
the sweep keeps the unit alive but resets its mark state to UNMARKED. -/
theorem claim_C5_counterexample :
    (gc_sweep_block sample_fullmarked_header 1 true).2 = false ∧
    (gc_sweep_block sample_fullmarked_header 1 true).1.m_gc_attr.m_gc_marked
      = WOOMEM_GC_MARKED_UNMARKED ∧
    WOOMEM_GC_MARKED_UNMARKED ≠ WOOMEM_GC_MARKED_FULL_MARKED := by
  refine ⟨by decide, by decide, by decide⟩

/-- Claim C5 (amended): a FULL_MARKED unit always survives the sweep, but
the sweep itself resets its mark state to UNMARKED via
update_gc_attr_after_survive; woomem_try_mark_self never alters a
FULL_MARKED unit, so within a cycle the state only leaves FULL_MARKED when
the unit is freed or when the sweep of woomem_end_gc_mark_and_free_all_unmarked
resets it for the next cycle. -/
theorem claim_C5_sweep_resets_fullmarked :
    ∀ (header : BlockHeader) (t : Nat) (full f2 : Bool),
      header.m_gc_attr.m_gc_marked = WOOMEM_GC_MARKED_FULL_MARKED →
      (header.m_allocated = true →
        gc_sweep_block header t full = (update_gc_attr_after_survive header, false)) ∧
      (update_gc_attr_after_survive header).m_gc_attr.m_gc_marked
        = WOOMEM_GC_MARKED_UNMARKED ∧
      woomem_try_mark_self header f2 = (false, header) := by
  intro header t full f2 hm
  simp only [WOOMEM_GC_MARKED_FULL_MARKED] at hm
  refine ⟨?_, ?_, ?_⟩
  · intro ha
    unfold gc_sweep_block should_gc_free
    simp [ha, hm, WOOMEM_GC_MARKED_SELF_MARKED, WOOMEM_GC_MARKED_FULL_MARKED,
      WOOMEM_GC_MARKED_DONOT_RELEASE]
  · unfold update_gc_attr_after_survive
    simp [hm, WOOMEM_GC_MARKED_UNMARKED, WOOMEM_GC_MARKED_DONOT_RELEASE]
    split_ifs <;> rfl
  · unfold woomem_try_mark_self
    by_cases ha : header.m_allocated = false
    · simp [ha]
    · simp [ha, hm, WOOMEM_GC_MARKED_SELF_MARKED, WOOMEM_GC_MARKED_FULL_MARKED,
        WOOMEM_GC_MARKED_DONOT_RELEASE]

/-- Witness for the amended claim C5 at a concrete FULL_MARKED unit. -/
theorem claim_C5_witness :
    sample_fullmarked_header.m_gc_attr.m_gc_marked = WOOMEM_GC_MARKED_FULL_MARKED ∧
    gc_sweep_block sample_fullmarked_header 1 true
      = (update_gc_attr_after_survive sample_fullmarked_header, false) ∧
    (update_gc_attr_after_survive sample_fullmarked_header).m_gc_attr.m_gc_marked
      = WOOMEM_GC_MARKED_UNMARKED ∧
    woomem_try_mark_self sample_fullmarked_header false
      = (false, sample_fullmarked_header) :=
  ⟨rfl,
   (claim_C5_sweep_resets_fullmarked sample_fullmarked_header 1 true false rfl).1 rfl,
   (claim_C5_sweep_resets_fullmarked sample_fullmarked_header 1 true false rfl).2.1,
   (claim_C5_sweep_resets_fullmarked sample_fullmarked_header 1 true false rfl).2.2⟩

/-- Claim C6: every woomem_begin_gc_mark advances the published epoch by one
modulo four; after n calls from a fresh initialisation the published epoch
equals n mod 4. -/
theorem claim_C6_epoch_mod4 :
    ∀ n : Nat, timing_after_begin_gc_marks n = n % 4 := by
  intro n
  induction n with
  | zero => rfl
  | succ n ih =>
      have key : ∀ x : Nat, x < 4 → (x + 1) &&& 3 = (x + 1) % 4 := by decide
      show begin_gc_mark_timing (timing_after_begin_gc_marks n) = (n + 1) % 4
      rw [ih]
      unfold begin_gc_mark_timing
      rw [key (n % 4) (Nat.mod_lt n (by decide))]
      omega

/-- Claim C9: woomem_free called with a null pointer, or before the
allocator is initialised, returns immediately and leaves the whole
allocator state unchanged. -/
theorem claim_C9_null_free_noop :
    ∀ (st : AllocGlobalState) (ptr : Option BlockHeader),
      (ptr = none ∨ st.g_initialized = false) → woomem_free st ptr = st := by
  intro st ptr h
  rcases h with h | h
  · rw [h]; rfl
  · cases ptr with
    | none => rfl
    | some header => unfold woomem_free; simp [h]

/-- Sample uninitialised allocator state with a non trivial thread cache. -/
def sample_alloc_state : AllocGlobalState :=
  { g_initialized := false
    thread_cache :=
      { m_free_list := [sample_unmarked_header]
        m_free_count := 1
        central_free_list := []
        central_free_count := 0
        central_large_blocks := [] } }

/-- Witness for claim C9: a null free and an uninitialised free both leave
the concrete state untouched. -/
theorem claim_C9_witness :
    ((none : Option BlockHeader) = none ∨ sample_alloc_state.g_initialized = false) ∧
    woomem_free sample_alloc_state none = sample_alloc_state ∧
    woomem_free sample_alloc_state (some sample_old_header) = sample_alloc_state :=
  ⟨Or.inl rfl,
   claim_C9_null_free_noop sample_alloc_state none (Or.inl rfl),
   claim_C9_null_free_noop sample_alloc_state (some sample_old_header) (Or.inr rfl)⟩

/-- Claim C10: ThreadCache::free keeps the per class cached block count at
or below THREAD_CACHE_MAX_SIZE; whenever a free pushes the count above the
bound, half of the cached blocks are returned to the central cache before
the call returns. -/
theorem claim_C10_thread_cache_bounded :
    ∀ (tc : ThreadCacheClass) (header : BlockHeader),
      tc.m_free_count ≤ THREAD_CACHE_MAX_SIZE →
      (ThreadCache_free tc header).m_free_count ≤ THREAD_CACHE_MAX_SIZE ∧
      (header.m_large_block = false →
        tc.m_free_count + 1 > THREAD_CACHE_MAX_SIZE →
        (ThreadCache_free tc header).central_free_count
            = tc.central_free_count + (tc.m_free_count + 1) / 2 ∧
        (ThreadCache_free tc header).m_free_count
            = tc.m_free_count + 1 - (tc.m_free_count + 1) / 2) := by
  intro tc header hle
  unfold ThreadCache_free
  by_cases hl : header.m_large_block
  · rw [if_pos hl]
    refine ⟨hle, ?_⟩
    intro h0
    rw [hl] at h0
    cases h0
  · rw [if_neg hl]
    by_cases hover : tc.m_free_count + 1 > THREAD_CACHE_MAX_SIZE
    · rw [if_pos hover]
      have hrc : (tc.m_free_count + 1) / 2 ≠ 0 := by
        unfold THREAD_CACHE_MAX_SIZE at hover
        omega
      have hne : (free_reset_header header :: tc.m_free_list).take
          ((tc.m_free_count + 1) / 2) ≠ [] := by
        obtain ⟨m, hm⟩ : ∃ m, (tc.m_free_count + 1) / 2 = m + 1 :=
          ⟨(tc.m_free_count + 1) / 2 - 1, by omega⟩
        rw [hm]
        simp
      refine ⟨?_, ?_⟩
      · show tc.m_free_count + 1 - (tc.m_free_count + 1) / 2 ≤ THREAD_CACHE_MAX_SIZE
        unfold THREAD_CACHE_MAX_SIZE at *
        omega
      · intro _ _
        refine ⟨?_, rfl⟩
        show (return_batch tc.central_free_list tc.central_free_count
            ((free_reset_header header :: tc.m_free_list).take ((tc.m_free_count + 1) / 2))
            ((tc.m_free_count + 1) / 2)).2
          = tc.central_free_count + (tc.m_free_count + 1) / 2
        unfold return_batch
        rw [if_neg (not_or.mpr ⟨hne, hrc⟩)]
    · rw [if_neg hover]
      refine ⟨?_, ?_⟩
      · show tc.m_free_count + 1 ≤ THREAD_CACHE_MAX_SIZE
        omega
      · intro _ hcontra
        exact absurd hcontra hover

/-- Sample thread cache holding exactly THREAD_CACHE_MAX_SIZE blocks. -/
def sample_full_thread_cache : ThreadCacheClass :=
  { m_free_list := List.replicate 512 sample_unmarked_header
    m_free_count := 512
    central_free_list := []
    central_free_count := 0
    central_large_blocks := [] }

/-- Witness for claim C10: freeing into a cache already at the bound keeps
the count within the bound and returns half of the blocks. -/
theorem claim_C10_witness :
    sample_full_thread_cache.m_free_count ≤ THREAD_CACHE_MAX_SIZE ∧
    (ThreadCache_free sample_full_thread_cache sample_old_header).m_free_count
      ≤ THREAD_CACHE_MAX_SIZE ∧
    (ThreadCache_free sample_full_thread_cache sample_old_header).central_free_count
      = sample_full_thread_cache.central_free_count
        + (sample_full_thread_cache.m_free_count + 1) / 2 ∧
    (ThreadCache_free sample_full_thread_cache sample_old_header).m_free_count
      = sample_full_thread_cache.m_free_count + 1
        - (sample_full_thread_cache.m_free_count + 1) / 2 :=
  ⟨by decide,
   (claim_C10_thread_cache_bounded sample_full_thread_cache sample_old_header
      (by decide)).1,
   ((claim_C10_thread_cache_bounded sample_full_thread_cache sample_old_header
      (by decide)).2 rfl (by decide)).1,
   ((claim_C10_thread_cache_bounded sample_full_thread_cache sample_old_header
      (by decide)).2 rfl (by decide)).2⟩

end WoomemCentral

namespace WoomemPaged

/-- Mark state RELEASED from the second header of src/unnamed/part_000. -/
def WOOMEM_GC_MARKED_RELEASED : Nat := 0

/-- Mark state UNMARKED from the second header of src/unnamed/part_000. -/
def WOOMEM_GC_MARKED_UNMARKED : Nat := 1

/-- Mark state SELF_MARKED from the second header of src/unnamed/part_000. -/
def WOOMEM_GC_MARKED_SELF_MARKED : Nat := 2

/-- Mark state FULL_MARKED from the second header of src/unnamed/part_000. -/
def WOOMEM_GC_MARKED_FULL_MARKED : Nat := 3

/-- Unit type bit NEED_SWEEP from the second header of src/unnamed/part_000. -/
def WOOMEM_GC_UNIT_TYPE_NEED_SWEEP : Nat := 1

/-- Unit type bit AUTO_MARK from the second header of src/unnamed/part_000. -/
def WOOMEM_GC_UNIT_TYPE_AUTO_MARK : Nat := 2

/-- Unit type bit HAS_MARKER from the second header of src/unnamed/part_000. -/
def WOOMEM_GC_UNIT_TYPE_HAS_MARKER : Nat := 4

/-- Unit type bit HAS_FINALIZER from the second header of src/unnamed/part_000. -/
def WOOMEM_GC_UNIT_TYPE_HAS_FINALIZER : Nat := 8

/-- Page size, src/unnamed/part_002 line 177. -/
def PAGE_SIZE : Nat := 64 * 1024

/-- Large unit header size, src/unnamed/part_002 line 190. -/
def LARGE_SPACE_HEAD_SIZE : Nat := 32

/-- Largest size served by the large classes, src/unnamed/part_002 line 192. -/
def MOST_LARGE_UNIT_SIZE : Nat := 16 * PAGE_SIZE - LARGE_SPACE_HEAD_SIZE

/-- Small size bound, src/unnamed/part_002 line 312. -/
def MAX_SMALL_UNIT_SIZE : Nat := 1024

/-- PageGroupType enum values, src/unnamed/part_002 lines 198 to 245.  The
enum has the underlying type uint8. -/
def SMALL_8 : Nat := 0
def SMALL_24 : Nat := 1
def SMALL_40 : Nat := 2
def SMALL_56 : Nat := 3
def SMALL_88 : Nat := 4
def SMALL_128 : Nat := 5
def SMALL_192 : Nat := 6
def SMALL_264 : Nat := 7
def SMALL_344 : Nat := 8
def SMALL_488 : Nat := 9
def SMALL_704 : Nat := 10
def SMALL_920 : Nat := 11
def SMALL_1024 : Nat := 12
def MIDIUM_1440 : Nat := 13
def MIDIUM_2168 : Nat := 14
def MIDIUM_3104 : Nat := 15
def MIDIUM_4352 : Nat := 16
def MIDIUM_6536 : Nat := 17
def MIDIUM_9344 : Nat := 18
def MIDIUM_13088 : Nat := 19
def MIDIUM_21824 : Nat := 20
def FAST_AND_MIDIUM_GROUP_COUNT : Nat := 21
def LARGE_PAGES_1 : Nat := 21
def LARGE_PAGES_2 : Nat := 22
def LARGE_PAGES_16 : Nat := 36
def TOTAL_GROUP_COUNT : Nat := 37
def HUGE : Nat := 37

/-- The 129 entry lookup table SMALL_PAGE_GROUPS_FAST_LOOKUP_FOR_EACH_8B,
src/unnamed/part_002 lines 316 to 447, one entry per 8 byte slot. -/
def SMALL_PAGE_GROUPS_FAST_LOOKUP_FOR_EACH_8B : List Nat :=
  [SMALL_8, SMALL_8,
   SMALL_24, SMALL_24,
   SMALL_40, SMALL_40,
   SMALL_56, SMALL_56,
   SMALL_88, SMALL_88, SMALL_88, SMALL_88,
   SMALL_128, SMALL_128, SMALL_128, SMALL_128, SMALL_128,
   SMALL_192, SMALL_192, SMALL_192, SMALL_192,
   SMALL_192, SMALL_192, SMALL_192, SMALL_192,
   SMALL_264, SMALL_264, SMALL_264, SMALL_264, SMALL_264,
   SMALL_264, SMALL_264, SMALL_264, SMALL_264,
   SMALL_344, SMALL_344, SMALL_344, SMALL_344, SMALL_344,
   SMALL_344, SMALL_344, SMALL_344, SMALL_344, SMALL_344,
   SMALL_488, SMALL_488, SMALL_488, SMALL_488, SMALL_488, SMALL_488,
   SMALL_488, SMALL_488, SMALL_488, SMALL_488, SMALL_488, SMALL_488,
   SMALL_488, SMALL_488, SMALL_488, SMALL_488, SMALL_488, SMALL_488,
   SMALL_704, SMALL_704, SMALL_704, SMALL_704, SMALL_704, SMALL_704,
   SMALL_704, SMALL_704, SMALL_704, SMALL_704, SMALL_704, SMALL_704,
   SMALL_704, SMALL_704, SMALL_704, SMALL_704, SMALL_704, SMALL_704,
   SMALL_704, SMALL_704, SMALL_704, SMALL_704, SMALL_704, SMALL_704,
   SMALL_704, SMALL_704, SMALL_704,
   SMALL_920, SMALL_920, SMALL_920, SMALL_920, SMALL_920, SMALL_920,
   SMALL_920, SMALL_920, SMALL_920, SMALL_920, SMALL_920, SMALL_920,
   SMALL_920, SMALL_920, SMALL_920, SMALL_920, SMALL_920, SMALL_920,
   SMALL_920, SMALL_920, SMALL_920, SMALL_920, SMALL_920, SMALL_920,
   SMALL_920, SMALL_920, SMALL_920,
   SMALL_1024, SMALL_1024, SMALL_1024, SMALL_1024, SMALL_1024,
   SMALL_1024, SMALL_1024, SMALL_1024, SMALL_1024, SMALL_1024,
   SMALL_1024, SMALL_1024, SMALL_1024]

/-- The capacity table UINT_SIZE_FOR_PAGE_GROUP_TYPE_FAST_LOOKUP,
src/unnamed/part_002 lines 295 to 306. -/
def UINT_SIZE_FOR_PAGE_GROUP_TYPE_FAST_LOOKUP : List Nat :=
  [8, 24, 40, 56, 88, 128, 192, 264, 344, 488, 704, 920, 1024,
   1440, 2168, 3104, 4352, 6536, 9344, 13088, 21824,
   65504, 131040, 196576, 262112, 327648, 393184, 458720, 524256,
   589792, 655328, 720864, 786400, 851936, 917472, 983008, 1048544]

/-- Capacity of a page group, a lookup into the table above. -/
def unit_capacity_of_group (group : Nat) : Nat :=
  UINT_SIZE_FOR_PAGE_GROUP_TYPE_FAST_LOOKUP.getD group 0

/-- get_page_group_type_for_size, src/unnamed/part_002 lines 454 to 482.
The small branch uses a strict comparison against MAX_SMALL_UNIT_SIZE and
indexes the lookup table with (size + 7) >>> 3, which stays below 129 under
that guard (the getD default is never reached).  The large branch returns
static_cast of LARGE_PAGES_1 + ((size + LARGE_SPACE_HEAD_SIZE - 1) >> 5)
to the uint8 backed enum, hence the modulo 256. -/
def get_page_group_type_for_size (size : Nat) : Nat :=
  if size < MAX_SMALL_UNIT_SIZE then
    SMALL_PAGE_GROUPS_FAST_LOOKUP_FOR_EACH_8B.getD ((size + 7) >>> 3) 0
  else if size ≤ 1440 then MIDIUM_1440
  else if size ≤ 2168 then MIDIUM_2168
  else if size ≤ 3104 then MIDIUM_3104
  else if size ≤ 4352 then MIDIUM_4352
  else if size ≤ 6536 then MIDIUM_6536
  else if size ≤ 9344 then MIDIUM_9344
  else if size ≤ 13088 then MIDIUM_13088
  else if size ≤ 21824 then MIDIUM_21824
  else if size ≤ MOST_LARGE_UNIT_SIZE then
    (LARGE_PAGES_1 + ((size + LARGE_SPACE_HEAD_SIZE - 1) >>> 5)) % 256
  else HUGE

/-- Large class formula asserted by the specification: LARGE_1 plus the
ceiling of (size + large header) over the page size, minus one. -/
def spec_large_class_for_size (size : Nat) : Nat :=
  LARGE_PAGES_1 + (size + LARGE_SPACE_HEAD_SIZE + PAGE_SIZE - 1) / PAGE_SIZE - 1

/-- The UnitHead gc fields of src/unnamed/part_002 lines 513 to 566. -/
structure UnitHead where
  m_alloc_timing : Nat
  m_gc_type : Nat
  m_gc_age : Nat
  m_gc_marked : Nat
deriving DecidableEq

/-- UnitHead::destroy, src/unnamed/part_002 lines 526 to 534, runs the
registered destroyer exactly when the HAS_FINALIZER bit is set. -/
def destroy_invokes_finalizer (u : UnitHead) : Bool :=
  u.m_gc_type &&& WOOMEM_GC_UNIT_TYPE_HAS_FINALIZER != 0

/-- UnitHead::try_free_this_unit_head, src/unnamed/part_002 lines 535 to
545: the mark state is atomically exchanged with RELEASED; when the
previous value was not RELEASED the destroy hook runs and the call reports
success, otherwise (a unit already released, for example a double free)
nothing happens and the call reports failure.  The result is the success
flag, the unit after the exchange, and whether the finalizer ran. -/
def try_free_this_unit_head (u : UnitHead) : Bool × UnitHead × Bool :=
  if u.m_gc_marked != WOOMEM_GC_MARKED_RELEASED then
    (true, { u with m_gc_marked := WOOMEM_GC_MARKED_RELEASED },
     destroy_invokes_finalizer u)
  else
    (false, { u with m_gc_marked := WOOMEM_GC_MARKED_RELEASED }, false)

/-- The async freed unit chain of one page, PageHead::m_freed_unit_head_offset
of src/unnamed/part_002, as the list of freed unit offsets. -/
structure PageFreedList where
  m_freed_unit_head_offset : List Nat
deriving DecidableEq

/-- Page::drop_back_unit_in_this_page_asyncly, src/unnamed/part_002 lines
658 to 685: the freed unit is prepended to the atomic freed chain. -/
def drop_back_unit_in_this_page_asyncly (p : PageFreedList) (unit_offset : Nat) :
    PageFreedList :=
  { m_freed_unit_head_offset := unit_offset :: p.m_freed_unit_head_offset }

/-- Page::free_unit_in_this_page_asyncly, src/unnamed/part_002 lines 686 to
694: only a successful try_free_this_unit_head pushes the unit onto the
freed chain.  The result is the page chain, the unit, and whether the
finalizer ran. -/
def free_unit_in_this_page_asyncly (p : PageFreedList) (u : UnitHead)
    (unit_offset : Nat) : PageFreedList × UnitHead × Bool :=
  if (try_free_this_unit_head u).1 then
    (drop_back_unit_in_this_page_asyncly p unit_offset,
     (try_free_this_unit_head u).2.1, (try_free_this_unit_head u).2.2)
  else
    (p, (try_free_this_unit_head u).2.1, (try_free_this_unit_head u).2.2)

/-- Outcome of woomem_realloc, src/unnamed/part_002 lines 2264 to 2331. -/
inductive ReallocAction where
  | keep_same_pointer : ReallocAction
  | keep_huge_in_place : ReallocAction
  | reallocate_copy_free : ReallocAction
deriving DecidableEq

/-- Decision logic of woomem_realloc, src/unnamed/part_002 lines 2264 to
2331, given the page group of the old unit (as the code reads it from the
parent page head), the aligned capacity when the old unit is huge, and the
new size: when the new group is at most the old group and less than two
steps below it the pointer is kept (a huge unit additionally checks that
the new size fits its aligned capacity), otherwise a new unit is
allocated, the payload copied and the old unit freed. -/
def woomem_realloc_decision (old_group_type : Nat) (old_huge_aligned_size : Nat)
    (new_size : Nat) : ReallocAction :=
  if get_page_group_type_for_size new_size ≤ old_group_type ∧
     old_group_type - get_page_group_type_for_size new_size < 2 then
    if old_group_type ≠ HUGE then ReallocAction.keep_same_pointer
    else if new_size ≤ old_huge_aligned_size then ReallocAction.keep_huge_in_place
    else ReallocAction.reallocate_copy_free
  else ReallocAction.reallocate_copy_free

/-- Claim C4 (failing input): at the sixteen page large boundary, size
16 * 65536 - 32, the classifier of the code does not return LARGE_16.  The
shift in the large branch is by 5 although its own comment says div
PAGE_SIZE (which is 2 to the 16); after the uint8 enum cast the boundary
size lands on MIDIUM_21824 instead of LARGE_16 as both the claim and the
specification formula require. -/
theorem claim_C4_large_boundary_misclassified :
    get_page_group_type_for_size (16 * PAGE_SIZE - LARGE_SPACE_HEAD_SIZE)
      = MIDIUM_21824 ∧
    spec_large_class_for_size (16 * PAGE_SIZE - LARGE_SPACE_HEAD_SIZE)
      = LARGE_PAGES_16 ∧
    MIDIUM_21824 ≠ LARGE_PAGES_16 ∧
    get_page_group_type_for_size 100000 = 74 ∧
    spec_large_class_for_size 100000 = LARGE_PAGES_2 ∧
    TOTAL_GROUP_COUNT < 74 ∧
    (∀ size : Nat, MOST_LARGE_UNIT_SIZE < size →
      get_page_group_type_for_size size = HUGE) := by
  refine ⟨by decide, by decide, by decide, by decide, by decide, by decide, ?_⟩
  intro size hgt
  have hb : 1048544 < size := by
    unfold MOST_LARGE_UNIT_SIZE PAGE_SIZE LARGE_SPACE_HEAD_SIZE at hgt
    omega
  unfold get_page_group_type_for_size
  rw [if_neg (show ¬ size < MAX_SMALL_UNIT_SIZE by unfold MAX_SMALL_UNIT_SIZE; omega)]
  rw [if_neg (show ¬ size ≤ 1440 by omega)]
  rw [if_neg (show ¬ size ≤ 2168 by omega)]
  rw [if_neg (show ¬ size ≤ 3104 by omega)]
  rw [if_neg (show ¬ size ≤ 4352 by omega)]
  rw [if_neg (show ¬ size ≤ 6536 by omega)]
  rw [if_neg (show ¬ size ≤ 9344 by omega)]
  rw [if_neg (show ¬ size ≤ 13088 by omega)]
  rw [if_neg (show ¬ size ≤ 21824 by omega)]
  rw [if_neg (show ¬ size ≤ MOST_LARGE_UNIT_SIZE by
        unfold MOST_LARGE_UNIT_SIZE PAGE_SIZE LARGE_SPACE_HEAD_SIZE; omega)]

/-- Witness for the universal huge half of the claim C4 theorem, one byte
past the sixteen page boundary. -/
theorem claim_C4_witness :
    MOST_LARGE_UNIT_SIZE < 16 * PAGE_SIZE - LARGE_SPACE_HEAD_SIZE + 1 ∧
    get_page_group_type_for_size (16 * PAGE_SIZE - LARGE_SPACE_HEAD_SIZE + 1)
      = HUGE :=
  ⟨by decide,
   claim_C4_large_boundary_misclassified.2.2.2.2.2.2
     (16 * PAGE_SIZE - LARGE_SPACE_HEAD_SIZE + 1) (by decide)⟩

/-- Claim C7: freeing a sweep managed unit twice is harmless.  The first
free releases the unit, pushes its offset on the page freed chain and runs
the finalizer exactly when the HAS_FINALIZER bit is set; the second free
observes RELEASED in the atomic exchange, runs no finalizer and pushes
nothing. -/
theorem claim_C7_double_free_ignored :
    ∀ (p : PageFreedList) (u : UnitHead) (unit_offset : Nat),
      u.m_gc_marked ≠ WOOMEM_GC_MARKED_RELEASED →
      (free_unit_in_this_page_asyncly p u unit_offset).2.1.m_gc_marked
          = WOOMEM_GC_MARKED_RELEASED ∧
      (free_unit_in_this_page_asyncly p u unit_offset).1.m_freed_unit_head_offset
          = unit_offset :: p.m_freed_unit_head_offset ∧
      (free_unit_in_this_page_asyncly p u unit_offset).2.2
          = destroy_invokes_finalizer u ∧
      free_unit_in_this_page_asyncly
          (free_unit_in_this_page_asyncly p u unit_offset).1
          (free_unit_in_this_page_asyncly p u unit_offset).2.1 unit_offset
        = ((free_unit_in_this_page_asyncly p u unit_offset).1,
           (free_unit_in_this_page_asyncly p u unit_offset).2.1, false) := by
  intro p u unit_offset hm
  have hm0 : ¬ u.m_gc_marked = 0 := by
    simpa [WOOMEM_GC_MARKED_RELEASED] using hm
  have h1 : free_unit_in_this_page_asyncly p u unit_offset
      = (drop_back_unit_in_this_page_asyncly p unit_offset,
         { u with m_gc_marked := WOOMEM_GC_MARKED_RELEASED },
         destroy_invokes_finalizer u) := by
    simp [free_unit_in_this_page_asyncly, try_free_this_unit_head,
      WOOMEM_GC_MARKED_RELEASED, hm0]
  rw [h1]
  refine ⟨rfl, rfl, rfl, ?_⟩
  simp [free_unit_in_this_page_asyncly, try_free_this_unit_head,
    drop_back_unit_in_this_page_asyncly, WOOMEM_GC_MARKED_RELEASED]

/-- Sample sweep managed unit with a finalizer, not yet released. -/
def sample_unit_head : UnitHead :=
  { m_alloc_timing := 1
    m_gc_type := 9
    m_gc_age := 15
    m_gc_marked := 1 }

/-- Sample page freed chain. -/
def sample_page_chain : PageFreedList :=
  { m_freed_unit_head_offset := [16] }

/-- Witness for claim C7 at a concrete unit and page. -/
theorem claim_C7_witness :
    sample_unit_head.m_gc_marked ≠ WOOMEM_GC_MARKED_RELEASED ∧
    (free_unit_in_this_page_asyncly sample_page_chain sample_unit_head 48).2.1.m_gc_marked
        = WOOMEM_GC_MARKED_RELEASED ∧
    (free_unit_in_this_page_asyncly sample_page_chain sample_unit_head 48).1.m_freed_unit_head_offset
        = 48 :: sample_page_chain.m_freed_unit_head_offset ∧
    (free_unit_in_this_page_asyncly sample_page_chain sample_unit_head 48).2.2
        = destroy_invokes_finalizer sample_unit_head ∧
    free_unit_in_this_page_asyncly
        (free_unit_in_this_page_asyncly sample_page_chain sample_unit_head 48).1
        (free_unit_in_this_page_asyncly sample_page_chain sample_unit_head 48).2.1 48
      = ((free_unit_in_this_page_asyncly sample_page_chain sample_unit_head 48).1,
         (free_unit_in_this_page_asyncly sample_page_chain sample_unit_head 48).2.1,
         false) :=
  ⟨by decide,
   (claim_C7_double_free_ignored sample_page_chain sample_unit_head 48 (by decide)).1,
   (claim_C7_double_free_ignored sample_page_chain sample_unit_head 48 (by decide)).2.1,
   (claim_C7_double_free_ignored sample_page_chain sample_unit_head 48 (by decide)).2.2.1,
   (claim_C7_double_free_ignored sample_page_chain sample_unit_head 48 (by decide)).2.2.2⟩

/-- Counterexample to claim C8 as stated: for a unit of class SMALL_1024,
woomem_realloc at the class capacity (1024 bytes) does not return the same
pointer; the classifier maps 1024 to MIDIUM_1440 (the small branch uses a
strict comparison), the new group lies above the old one, and the code
allocates a new unit, copies and frees the old one. -/
theorem claim_C8_counterexample :
    woomem_realloc_decision SMALL_1024 0 (unit_capacity_of_group SMALL_1024)
      = ReallocAction.reallocate_copy_free ∧
    ReallocAction.reallocate_copy_free ≠ ReallocAction.keep_same_pointer := by
  refine ⟨by decide, by decide⟩

/-- Claim C8 (amended): for a page backed old unit (small or medium class;
large and huge units reach this code through a null parent page pointer),
woomem_realloc keeps the pointer exactly when the class of the new size is
at most the old class and fewer than two steps below it; consequently
realloc at the class capacity keeps the pointer for every small and medium
class except SMALL_1024, whose capacity 1024 classifies as MIDIUM_1440. -/
theorem claim_C8_realloc_keep_characterization :
    (∀ (group new_size : Nat), group < FAST_AND_MIDIUM_GROUP_COUNT →
      (woomem_realloc_decision group 0 new_size = ReallocAction.keep_same_pointer ↔
        (get_page_group_type_for_size new_size ≤ group ∧
         group - get_page_group_type_for_size new_size < 2))) ∧
    (∀ group : Nat, group < FAST_AND_MIDIUM_GROUP_COUNT → group ≠ SMALL_1024 →
      woomem_realloc_decision group 0 (unit_capacity_of_group group)
        = ReallocAction.keep_same_pointer) := by
  constructor
  · intro group new_size hg
    have hne : group ≠ HUGE := by
      unfold FAST_AND_MIDIUM_GROUP_COUNT at hg
      unfold HUGE
      omega
    unfold woomem_realloc_decision
    by_cases hcond : get_page_group_type_for_size new_size ≤ group ∧
        group - get_page_group_type_for_size new_size < 2
    · rw [if_pos hcond, if_pos hne]
      exact ⟨fun _ => hcond, fun _ => rfl⟩
    · rw [if_neg hcond]
      constructor
      · intro hk
        cases hk
      · intro hc
        exact absurd hc hcond
  · decide

/-- Witness for the amended claim C8 at concrete classes and sizes. -/
theorem claim_C8_witness :
    (SMALL_128 < FAST_AND_MIDIUM_GROUP_COUNT) ∧
    (woomem_realloc_decision SMALL_128 0 100 = ReallocAction.keep_same_pointer ↔
      (get_page_group_type_for_size 100 ≤ SMALL_128 ∧
       SMALL_128 - get_page_group_type_for_size 100 < 2)) ∧
    (SMALL_920 ≠ SMALL_1024) ∧
    woomem_realloc_decision SMALL_920 0 (unit_capacity_of_group SMALL_920)
      = ReallocAction.keep_same_pointer ∧
    woomem_realloc_decision MIDIUM_21824 0 (unit_capacity_of_group MIDIUM_21824)
      = ReallocAction.keep_same_pointer :=
  ⟨by decide,
   claim_C8_realloc_keep_characterization.1 SMALL_128 100 (by decide),
   by decide,
   claim_C8_realloc_keep_characterization.2 SMALL_920 (by decide) (by decide),
   claim_C8_realloc_keep_characterization.2 MIDIUM_21824 (by decide) (by decide)⟩

end WoomemPaged
